import Mathlib

/-
Verification of the bounded file-ingestion and asynchronous-completion
pipeline of the karakeepbot repository.

The Go sources are shallowly embedded as pure Lean functions:

  - bytes are Nat values (the source only compares bytes, never overflows);
  - fallible operations return Except or Option;
  - the network and the local filesystem are modelled as explicit inputs
    (an HTTP response value, outcome fields for each local I/O step);
  - the content-sniffing function net/http DetectContentType (Go 1.24
    signature table, as vendored by the go.mod toolchain) is embedded in
    full, signature by signature, in table order.
-/

set_option autoImplicit false

namespace Karakeepbot

/-! Byte-level helpers shared by the sniffing table. -/

-- Whitespace bytes as defined by net/http sniff.go isWS.
def isWS (b : Nat) : Bool :=
  b == 0x09 || b == 0x0A || b == 0x0C || b == 0x0D || b == 0x20

-- Tag-terminating bytes as defined by net/http sniff.go isTT.
def isTT (b : Nat) : Bool :=
  b == 0x20 || b == 0x3E

-- Index of the first non-whitespace byte (length of the whitespace run).
def firstNonWS : List Nat → Nat
  | [] => 0
  | b :: rest => if isWS b then firstNonWS rest + 1 else 0

-- Boolean test that pat is a leading segment of data (bytes.HasPrefix).
def leadingMatch : List Nat → List Nat → Bool
  | [], _ => true
  | _ :: _, [] => false
  | p :: ps, d :: ds => p == d && leadingMatch ps ds

-- Masked comparison of sniff.go maskedSig.match: each data byte is ANDed
-- with the mask byte and compared with the pattern byte; a data list
-- shorter than the pattern never matches.
def maskedMatch : List Nat → List Nat → List Nat → Bool
  | [], [], _ => true
  | [], _ :: _, _ => false
  | _ :: _, [], _ => false
  | _ :: _, _ :: _, [] => false
  | p :: ps, m :: ms, d :: ds => ((d &&& m) == p) && maskedMatch ps ms ds

-- Case-insensitive HTML tag match of sniff.go htmlSig.match: uppercase
-- pattern letters fold the data byte with AND 0xDF, and the byte right
-- after the pattern must be tag-terminating.
def htmlPatMatch : List Nat → List Nat → Bool
  | [], [] => false
  | [], d :: _ => isTT d
  | _ :: _, [] => false
  | b :: bs, d :: ds =>
      (if 0x41 ≤ b ∧ b ≤ 0x5A then (d &&& 0xDF) == b else d == b) && htmlPatMatch bs ds

-- Big-endian 32-bit read of the first four bytes (binary.BigEndian.Uint32);
-- only consulted after a length check guarantees at least four bytes.
def readUint32BE (data : List Nat) : Nat :=
  match data with
  | b0 :: b1 :: b2 :: b3 :: _ => ((b0 * 256 + b1) * 256 + b2) * 256 + b3
  | _ => 0

-- Box scan of sniff.go mp4Sig.match: steps of four bytes from offset 8 up
-- to boxSize, skipping offset 12, looking for the ASCII bytes of mp4.
def mp4Scan (data : List Nat) (boxSize : Nat) (st : Nat) : Bool :=
  if st < boxSize then
    if st = 12 then mp4Scan data boxSize (st + 4)
    else if (data.drop st).take 3 = [0x6D, 0x70, 0x34] then true
    else mp4Scan data boxSize (st + 4)
  else false
termination_by boxSize - st
decreasing_by all_goals omega

/-! The signature table of net/http DetectContentType. -/

inductive SniffSig where
  | html (pat : List Nat)
  | masked (mask pat : List Nat) (skipWS : Bool) (ct : String)
  | exact (pat : List Nat) (ct : String)
  | mp4
  | text

def exactSigMatch (pat : List Nat) (ct : String) (data : List Nat) : Option String :=
  if leadingMatch pat data then some ct else none

def maskedSigMatch (mask pat : List Nat) (skipWS : Bool) (ct : String)
    (data : List Nat) (fnws : Nat) : Option String :=
  let d := if skipWS then data.drop fnws else data
  if maskedMatch pat mask d then some ct else none

def htmlSigMatch (pat : List Nat) (data : List Nat) (fnws : Nat) : Option String :=
  if htmlPatMatch pat (data.drop fnws) then some "text/html; charset=utf-8" else none

def mp4SigMatch (data : List Nat) : Option String :=
  if data.length < 12 then none
  else
    let boxSize := readUint32BE data
    if data.length < boxSize ∨ boxSize % 4 ≠ 0 then none
    else if (data.drop 4).take 4 ≠ [0x66, 0x74, 0x79, 0x70] then none
    else if mp4Scan data boxSize 8 then some "video/mp4" else none

def isBadTextByte (b : Nat) : Bool :=
  b ≤ 0x08 || b == 0x0B || (0x0E ≤ b && b ≤ 0x1A) || (0x1C ≤ b && b ≤ 0x1F)

def textSigMatch (data : List Nat) (fnws : Nat) : Option String :=
  if (data.drop fnws).any isBadTextByte then none
  else some "text/plain; charset=utf-8"

def sigMatch (data : List Nat) (fnws : Nat) : SniffSig → Option String
  | .html pat => htmlSigMatch pat data fnws
  | .masked mask pat skipWS ct => maskedSigMatch mask pat skipWS ct data fnws
  | .exact pat ct => exactSigMatch pat ct data
  | .mp4 => mp4SigMatch data
  | .text => textSigMatch data fnws

-- Signature table in the exact order of Go 1.24 net/http sniff.go.
def sniffSignatures : List SniffSig := [
  .html [0x3C, 0x21, 0x44, 0x4F, 0x43, 0x54, 0x59, 0x50, 0x45, 0x20, 0x48, 0x54, 0x4D, 0x4C],
  .html [0x3C, 0x48, 0x54, 0x4D, 0x4C],
  .html [0x3C, 0x48, 0x45, 0x41, 0x44],
  .html [0x3C, 0x53, 0x43, 0x52, 0x49, 0x50, 0x54],
  .html [0x3C, 0x49, 0x46, 0x52, 0x41, 0x4D, 0x45],
  .html [0x3C, 0x48, 0x31],
  .html [0x3C, 0x44, 0x49, 0x56],
  .html [0x3C, 0x46, 0x4F, 0x4E, 0x54],
  .html [0x3C, 0x54, 0x41, 0x42, 0x4C, 0x45],
  .html [0x3C, 0x41],
  .html [0x3C, 0x53, 0x54, 0x59, 0x4C, 0x45],
  .html [0x3C, 0x54, 0x49, 0x54, 0x4C, 0x45],
  .html [0x3C, 0x42],
  .html [0x3C, 0x42, 0x4F, 0x44, 0x59],
  .html [0x3C, 0x42, 0x52],
  .html [0x3C, 0x50],
  .html [0x3C, 0x21, 0x2D, 0x2D],
  .masked [0xFF, 0xFF, 0xFF, 0xFF, 0xFF] [0x3C, 0x3F, 0x78, 0x6D, 0x6C] true
    "text/xml; charset=utf-8",
  .exact [0x25, 0x50, 0x44, 0x46, 0x2D] "application/pdf",
  .exact [0x25, 0x21, 0x50, 0x53, 0x2D, 0x41, 0x64, 0x6F, 0x62, 0x65, 0x2D]
    "application/postscript",
  .masked [0xFF, 0xFF, 0x00, 0x00] [0xFE, 0xFF, 0x00, 0x00] false "text/plain; charset=utf-16be",
  .masked [0xFF, 0xFF, 0x00, 0x00] [0xFF, 0xFE, 0x00, 0x00] false "text/plain; charset=utf-16le",
  .masked [0xFF, 0xFF, 0xFF, 0x00] [0xEF, 0xBB, 0xBF, 0x00] false "text/plain; charset=utf-8",
  .exact [0x00, 0x00, 0x01, 0x00] "image/x-icon",
  .exact [0x00, 0x00, 0x02, 0x00] "image/x-icon",
  .exact [0x42, 0x4D] "image/bmp",
  .exact [0x47, 0x49, 0x46, 0x38, 0x37, 0x61] "image/gif",
  .exact [0x47, 0x49, 0x46, 0x38, 0x39, 0x61] "image/gif",
  .masked [0xFF, 0xFF, 0xFF, 0xFF, 0x00, 0x00, 0x00, 0x00, 0xFF, 0xFF, 0xFF, 0xFF]
    [0x52, 0x49, 0x46, 0x46, 0x00, 0x00, 0x00, 0x00, 0x57, 0x45, 0x42, 0x50] false "image/webp",
  .exact [0x89, 0x50, 0x4E, 0x47, 0x0D, 0x0A, 0x1A, 0x0A] "image/png",
  .exact [0xFF, 0xD8, 0xFF] "image/jpeg",
  .masked [0xFF, 0xFF, 0xFF, 0xFF] [0x2E, 0x73, 0x6E, 0x64] false "audio/basic",
  .masked [0xFF, 0xFF, 0xFF, 0xFF, 0x00, 0x00, 0x00, 0x00, 0xFF, 0xFF, 0xFF, 0xFF]
    [0x46, 0x4F, 0x52, 0x4D, 0x00, 0x00, 0x00, 0x00, 0x41, 0x49, 0x46, 0x46] false "audio/aiff",
  .masked [0xFF, 0xFF, 0xFF] [0x49, 0x44, 0x33] false "audio/mpeg",
  .masked [0xFF, 0xFF, 0xFF, 0xFF, 0xFF] [0x4F, 0x67, 0x67, 0x53, 0x00] false "application/ogg",
  .masked [0xFF, 0xFF, 0xFF, 0xFF, 0xFF, 0xFF, 0xFF, 0xFF]
    [0x4D, 0x54, 0x68, 0x64, 0x00, 0x00, 0x00, 0x06] false "audio/midi",
  .masked [0xFF, 0xFF, 0xFF, 0xFF, 0x00, 0x00, 0x00, 0x00, 0xFF, 0xFF, 0xFF, 0xFF]
    [0x52, 0x49, 0x46, 0x46, 0x00, 0x00, 0x00, 0x00, 0x41, 0x56, 0x49, 0x20] false "video/avi",
  .masked [0xFF, 0xFF, 0xFF, 0xFF, 0x00, 0x00, 0x00, 0x00, 0xFF, 0xFF, 0xFF, 0xFF]
    [0x52, 0x49, 0x46, 0x46, 0x00, 0x00, 0x00, 0x00, 0x57, 0x41, 0x56, 0x45] false "audio/wave",
  .mp4,
  .exact [0x1A, 0x45, 0xDF, 0xA3] "video/webm",
  .masked
    [0x00, 0x00, 0x00, 0x00, 0x00, 0x00, 0x00, 0x00, 0x00, 0x00, 0x00, 0x00, 0x00, 0x00, 0x00,
     0x00, 0x00, 0x00, 0x00, 0x00, 0x00, 0x00, 0x00, 0x00, 0x00, 0x00, 0x00, 0x00, 0x00, 0x00,
     0x00, 0x00, 0x00, 0x00, 0xFF, 0xFF]
    [0x00, 0x00, 0x00, 0x00, 0x00, 0x00, 0x00, 0x00, 0x00, 0x00, 0x00, 0x00, 0x00, 0x00, 0x00,
     0x00, 0x00, 0x00, 0x00, 0x00, 0x00, 0x00, 0x00, 0x00, 0x00, 0x00, 0x00, 0x00, 0x00, 0x00,
     0x00, 0x00, 0x00, 0x00, 0x4C, 0x50] false "application/vnd.ms-fontobject",
  .exact [0x00, 0x01, 0x00, 0x00] "font/ttf",
  .exact [0x4F, 0x54, 0x54, 0x4F] "font/otf",
  .exact [0x74, 0x74, 0x63, 0x66] "font/collection",
  .exact [0x77, 0x4F, 0x46, 0x46] "font/woff",
  .exact [0x77, 0x4F, 0x46, 0x32] "font/woff2",
  .exact [0x1F, 0x8B, 0x08] "application/x-gzip",
  .exact [0x50, 0x4B, 0x03, 0x04] "application/zip",
  .exact [0x52, 0x61, 0x72, 0x21, 0x1A, 0x07, 0x00] "application/x-rar-compressed",
  .exact [0x52, 0x61, 0x72, 0x21, 0x1A, 0x07, 0x01, 0x00] "application/x-rar-compressed",
  .exact [0x00, 0x61, 0x73, 0x6D] "application/wasm",
  .text
]

def runSniff (data : List Nat) (fnws : Nat) : List SniffSig → Option String
  | [] => none
  | s :: rest =>
    match sigMatch data fnws s with
    | some ct => some ct
    | none => runSniff data fnws rest

-- Table scan over at most the first 512 bytes, with the octet-stream
-- fallback, mirroring the body of DetectContentType.
def sniffDetect (data : List Nat) : String :=
  match runSniff data (firstNonWS data) sniffSignatures with
  | some ct => ct
  | none => "application/octet-stream"

-- Model of net/http DetectContentType: truncate to sniffLen bytes, then
-- scan the table.
def DetectContentType (data : List Nat) : String :=
  sniffDetect (data.take 512)

/-! Embedding of internal/filevalidator ImageValidator.

The Go function receives an open temp file; it seeks to the start, reads
up to 512 bytes, applies a hand-written RIFF/WEBP container check, and
only then falls back to DetectContentType restricted to an allow-list.
Seek and read failures propagate the underlying I/O error value, which is
a different error value from the errors.New unsupported-format rejection;
the inductive below keeps that distinction structural. -/

inductive VError where
  | ioError (msg : String)
  | unsupportedFormat
  deriving DecidableEq, Repr

-- RIFF/WEBP container condition on the up-to-512-byte buffer, exactly as
-- written in the source: length at least 12, bytes 0..3 spell RIFF and
-- bytes 8..11 spell WEBP.
def isWebpHeader (buffer : List Nat) : Prop :=
  12 ≤ buffer.length ∧ buffer.take 4 = [0x52, 0x49, 0x46, 0x46] ∧
    (buffer.drop 8).take 4 = [0x57, 0x45, 0x42, 0x50]

instance (buffer : List Nat) : Decidable (isWebpHeader buffer) := by
  unfold isWebpHeader; infer_instance

-- Byte-level core of ImageValidator, parameterized by the generic
-- sniffing function so that the order (container check first, generic
-- sniffing only as fallback) is visible in the statements.
def imageValidatorWith (sniff : List Nat → String) (content : List Nat) :
    Except VError String :=
  let buffer := content.take 512
  if isWebpHeader buffer then .ok "image/webp"
  else
    let contentType := sniff buffer
    if contentType = "image/jpeg" ∨ contentType = "image/png" then .ok contentType
    else .error .unsupportedFormat

-- ImageValidator logic on the bytes of a file whose seek and read
-- operations succeed.
def ImageValidatorBytes (content : List Nat) : Except VError String :=
  imageValidatorWith DetectContentType content

-- File handle with explicit outcomes for the two I/O operations the
-- validator performs before looking at the bytes.
structure FileModel where
  content : List Nat
  seekErr : Option String
  readErr : Option String

-- Full ImageValidator including the early returns on Seek and Read
-- failure (a read returning io.EOF is not a failure in the source and is
-- subsumed by a short content list here).
def ImageValidator (f : FileModel) : Except VError String :=
  match f.seekErr with
  | some m => .error (.ioError m)
  | none =>
    match f.readErr with
    | some m => .error (.ioError m)
    | none => ImageValidatorBytes f.content

/-! Embedding of internal/fileprocessor Process and Cleanup.

The processor downloads a URL into a fresh temp file under a byte
ceiling.  The network and the local I/O steps are explicit inputs: the
response is either a transport error or a status plus body, and each
local step that can fail carries its outcome.  The deferred block of the
source closes the temp file (surfacing the close error only when no
earlier error exists) and removes the file whenever an error is being
returned. -/

structure HttpResponse where
  status : Nat
  body : List Nat

inductive DownloadCause where
  | transport (msg : String)
  | badStatus (code : Nat)
  deriving DecidableEq, Repr

inductive ValidationCause where
  | exceedsLimit (maxBytes : Nat)
  | validatorRejected (e : VError)
  deriving DecidableEq, Repr

inductive ProcError where
  | processingFailed (msg : String)
  | downloadFailed (cause : DownloadCause)
  | validationFailed (cause : ValidationCause)
  deriving DecidableEq, Repr

-- Environment of one Process call: outcome of temp-file creation, the
-- HTTP GET (transport error or response), the body copy, and the final
-- temp-file close.
structure ProcessEnv where
  tmpCreateErr : Option String
  resp : Except String HttpResponse
  copyErr : Option String
  tmpCloseErr : Option String

-- Unique temp file name produced by os.CreateTemp for this call.
def tmpName : String := "/tmp/karakeepbot-2847565133.tmp"

structure ProcOutcome where
  result : Except ProcError (String × String)
  tempFileExistsAfter : Bool
  deriving Repr

-- Bytes actually written by io.Copy through the LimitedReader capped at
-- maxsize + 1 bytes.
def copyLimited (maxsize : Nat) (body : List Nat) : List Nat :=
  body.take (maxsize + 1)

-- Deferred block of Process: close the temp file, surfacing the close
-- error only when err is still nil, then remove the file if an error is
-- being returned.
def finalizeProcess (tmpCloseErr : Option String)
    (inner : Except ProcError (String × String)) : ProcOutcome :=
  match inner, tmpCloseErr with
  | .ok _, some m =>
      { result := .error (.processingFailed ("failed to close temp file: " ++ m)),
        tempFileExistsAfter := false }
  | .ok r, none => { result := .ok r, tempFileExistsAfter := true }
  | .error e, _ => { result := .error e, tempFileExistsAfter := false }

-- Processor.Process. A validator of none mirrors a nil Validator, in
-- which case the source seeks back and sniffs the first 512 bytes with
-- DetectContentType without rejecting anything.
def Process (maxsize : Nat) (env : ProcessEnv)
    (validator : Option (List Nat → Except VError String)) : ProcOutcome :=
  match env.tmpCreateErr with
  | some m =>
      { result := .error (.processingFailed ("failed to create temp file: " ++ m)),
        tempFileExistsAfter := false }
  | none =>
    let inner : Except ProcError (String × String) :=
      match env.resp with
      | .error m => .error (.downloadFailed (.transport m))
      | .ok resp =>
        if resp.status ≠ 200 then .error (.downloadFailed (.badStatus resp.status))
        else
          match env.copyErr with
          | some m => .error (.processingFailed ("copy failed: " ++ m))
          | none =>
            let written := copyLimited maxsize resp.body
            if written.length > maxsize then
              .error (.validationFailed (.exceedsLimit maxsize))
            else
              match validator with
              | some v =>
                match v written with
                | .error e => .error (.validationFailed (.validatorRejected e))
                | .ok ct => .ok (tmpName, ct)
              | none => .ok (tmpName, DetectContentType (written.take 512))
    finalizeProcess env.tmpCloseErr inner

/-! Embedding of Processor.Cleanup, which is os.Remove on the stored
path.  The filesystem is a membership predicate on paths; removing a
missing path reports the benign not-exist error of os.Remove and leaves
the filesystem unchanged. -/

inductive RemoveError where
  | notExist
  deriving DecidableEq, Repr

def Cleanup (fs : String → Bool) (path : String) :
    Except RemoveError Unit × (String → Bool) :=
  if fs path then (.ok (), fun q => if q = path then false else fs q)
  else (.error .notExist, fs)

/-! Embedding of the streaming uploader Karakeep.CreateAsset from
internal/karakeepbot/karakeep.go.

The producer goroutine opens the file, writes the multipart part header,
copies the file bytes, and then runs its deferred closers.  Its body
assigns the goroutine-local err variable and sends on the one-slot
channel only when the inner function returned a non-nil error; the two
close-checking defers run after that send decision, so a close failure
can only update the local variable, never the channel.  The inner
function has an unnamed result, so the file-close defer inside it cannot
change its returned value either.  Each wrapped failure is modelled as a
distinct constructor standing for the distinct message prefix the source
attaches with fmt.Errorf. -/

inductive ProducerError where
  | openFailed (msg : String)
  | createPartFailed (msg : String)
  | copyFailed (msg : String)
  | closeFileFailed (msg : String)
  | closeWriterFailed (msg : String)
  | closePipeFailed (msg : String)
  deriving DecidableEq, Repr

-- Outcome of each operation the producer goroutine performs.  fileSize
-- is the number of bytes io.Copy transfers when it succeeds; the source
-- discards that count.
structure ProducerEnv where
  openErr : Option String
  partErr : Option String
  copyErr : Option String
  fileSize : Nat
  fileCloseErr : Option String
  writerCloseErr : Option String
  pipeCloseErr : Option String

-- Value returned by the inner anonymous function: first failure among
-- file open, part-header creation, and byte copy.  The deferred
-- file.Close check inside it assigns a local variable, but the function
-- result is unnamed, so a file-close failure never reaches the caller.
def producerInner (e : ProducerEnv) : Option ProducerError :=
  match e.openErr with
  | some m => some (.openFailed m)
  | none =>
    match e.partErr with
    | some m => some (.createPartFailed m)
    | none =>
      match e.copyErr with
      | some m => some (.copyFailed m)
      | none => none

structure ProducerResult where
  sent : Option ProducerError
  finalErr : Option ProducerError

-- One run of the producer goroutine: the channel send happens right
-- after the inner function returns, and the writer-close and pipe-close
-- defers update the local err afterwards, each only when err is nil.
def producerRun (e : ProducerEnv) : ProducerResult :=
  let inner := producerInner e
  let afterWriter :=
    match inner, e.writerCloseErr with
    | none, some m => some (ProducerError.closeWriterFailed m)
    | i, _ => i
  let afterPipe :=
    match afterWriter, e.pipeCloseErr with
    | none, some m => some (ProducerError.closePipeFailed m)
    | i, _ => i
  { sent := inner, finalErr := afterPipe }

-- First failure among the five steps named by the specification: file
-- open, part-header write, byte copy, multipart trailer close, pipe
-- writer close.
def firstFailureFive (e : ProducerEnv) : Option ProducerError :=
  match e.openErr with
  | some m => some (.openFailed m)
  | none =>
    match e.partErr with
    | some m => some (.createPartFailed m)
    | none =>
      match e.copyErr with
      | some m => some (.copyFailed m)
      | none =>
        match e.writerCloseErr with
        | some m => some (.closeWriterFailed m)
        | none => e.pipeCloseErr.map .closePipeFailed

-- Remote asset value decoded from the JSON 200 response.
structure KarakeepAsset where
  assetId : String
  contentType : String
  size : Nat
  deriving DecidableEq, Repr

inductive UploadError where
  | producer (e : ProducerError)
  | cancelled (msg : String)
  | transport (msg : String)
  | badStatus (status : String) (body : String)
  deriving DecidableEq, Repr

-- Environment of one streaming upload: producer outcomes, the HTTP
-- call outcome, whether the context was cancelled, and the response.
structure UploadEnv where
  producer : ProducerEnv
  httpErr : Option String
  ctxCancelled : Bool
  status : Nat
  statusText : String
  respBody : String
  json200 : KarakeepAsset

-- Karakeep.CreateAsset: issue the POST, then read the one-slot channel
-- (joining the producer), give a channel error precedence, then report a
-- transport or cancellation error, then require status 200 exactly.
def KarakeepCreateAsset (env : UploadEnv) : Except UploadError KarakeepAsset :=
  let pr := producerRun env.producer
  match pr.sent with
  | some e => .error (.producer e)
  | none =>
    match env.httpErr with
    | some m =>
      if env.ctxCancelled then .error (.cancelled m) else .error (.transport m)
    | none =>
      if env.status ≠ 200 then .error (.badStatus env.statusText env.respBody)
      else .ok env.json200

/-! Embedding of the buffering private client internal/kkprivate
Client.CreateAsset.  This variant builds the whole multipart body in
memory, rejects a zero-byte copy before any HTTP activity, and then
checks the decoded JSON for an error field and a zero size. -/

structure KkAsset where
  assetId : String
  contentType : String
  size : Nat
  fileName : String
  error : String
  deriving DecidableEq, Repr

inductive KkError where
  | createFormFailed (msg : String)
  | copyFailed (msg : String)
  | nothingWritten
  | newRequestFailed (msg : String)
  | requestFailed (msg : String)
  | readBodyFailed (msg : String)
  | unmarshalFailed (msg : String)
  | remoteError (msg : String)
  | zeroSize
  deriving DecidableEq, Repr

-- Environment of one buffering upload: outcome of the form-field
-- creation, of the copy into the field together with the byte count it
-- reports, and of each step of the HTTP exchange.
structure KkEnv where
  formErr : Option String
  copyErr : Option String
  written : Nat
  requestBuildErr : Option String
  requestErr : Option String
  readBodyErr : Option String
  unmarshal : Except String KkAsset

def KkCreateAsset (env : KkEnv) : Except KkError KkAsset :=
  match env.formErr with
  | some m => .error (.createFormFailed m)
  | none =>
    match env.copyErr with
    | some m => .error (.copyFailed m)
    | none =>
      if env.written = 0 then .error .nothingWritten
      else
        match env.requestBuildErr with
        | some m => .error (.newRequestFailed m)
        | none =>
          match env.requestErr with
          | some m => .error (.requestFailed m)
          | none =>
            match env.readBodyErr with
            | some m => .error (.readBodyFailed m)
            | none =>
              match env.unmarshal with
              | .error m => .error (.unmarshalFailed m)
              | .ok asset =>
                if asset.error ≠ "" then .error (.remoteError asset.error)
                else if asset.size = 0 then .error .zeroSize
                else .ok asset

/-! Embedding of the completion-polling loop in the message handler
(internal/karakeepbot, handler): repeatedly retrieve the bookmark, stop
on a retrieval error or a terminal tagging status, sleep the configured
interval while the status is still pending. -/

inductive TaggingStatus where
  | pending
  | success
  | failure
  deriving DecidableEq, Repr

structure KarakeepBookmark where
  id : String
  taggingStatus : TaggingStatus
  deriving DecidableEq, Repr

-- Outcome classification of one loop iteration.
inductive PollStep where
  | abortFetchError (msg : String)
  | abortTaggingFailure
  | done (b : KarakeepBookmark)
  | sleepRetry (seconds : Nat)
  deriving DecidableEq, Repr

-- Body of one iteration: the RetrieveBookmarkById outcome is either an
-- error (return immediately) or a snapshot whose tagging status decides
-- between break, error return, and a fixed-interval sleep.
def pollIteration (waitInterval : Nat) (fetch : Except String KarakeepBookmark) :
    PollStep :=
  match fetch with
  | .error m => .abortFetchError m
  | .ok b =>
    match b.taggingStatus with
    | .success => .done b
    | .failure => .abortTaggingFailure
    | .pending => .sleepRetry waitInterval

inductive PollOutcome where
  | fetchFailed (msg : String)
  | taggingFailed
  | completed (b : KarakeepBookmark)
  deriving DecidableEq, Repr

-- Whole loop over a stream of fetch outcomes, together with the total
-- seconds slept; none means the supplied stream ran out while the
-- bookmark was still pending (the source loop would simply keep going).
def pollLoop (waitInterval : Nat) :
    List (Except String KarakeepBookmark) → Option (PollOutcome × Nat)
  | [] => none
  | f :: rest =>
    match pollIteration waitInterval f with
    | .abortFetchError m => some (.fetchFailed m, 0)
    | .abortTaggingFailure => some (.taggingFailed, 0)
    | .done b => some (.completed b, 0)
    | .sleepRetry s => (pollLoop waitInterval rest).map (fun r => (r.1, r.2 + s))

-- The three-byte JPEG magic number of the sniff table.
def jpegSigBytes : List Nat := [0xFF, 0xD8, 0xFF]

-- The eight-byte PNG magic number of the sniff table.
def pngSigBytes : List Nat := [0x89, 0x50, 0x4E, 0x47, 0x0D, 0x0A, 0x1A, 0x0A]

-- Every signature of the table carries a non-empty content type; used to
-- show the sniffing result is always populated.
def ctNonempty : SniffSig → Prop
  | .html _ => True
  | .masked _ _ _ ct => ct ≠ ""
  | .exact _ ct => ct ≠ ""
  | .mp4 => True
  | .text => True

instance (s : SniffSig) : Decidable (ctNonempty s) := by
  cases s <;> (unfold ctNonempty; infer_instance)

-- Producer environment of an upload of a file from which zero bytes are
-- copied and where every local operation succeeds.
def zeroByteProducer : ProducerEnv :=
  { openErr := none, partErr := none, copyErr := none, fileSize := 0,
    fileCloseErr := none, writerCloseErr := none, pipeCloseErr := none }

-- Upload of a zero-byte file answered by a plain 200 response.
def zeroByteUpload : UploadEnv :=
  { producer := zeroByteProducer, httpErr := none, ctxCancelled := false,
    status := 200, statusText := "200 OK", respBody := "",
    json200 := { assetId := "asset-1", contentType := "image/png", size := 0 } }

-- Fully successful upload answered by a 201 Created response.
def created201Upload : UploadEnv :=
  { producer := { openErr := none, partErr := none, copyErr := none, fileSize := 5,
                  fileCloseErr := none, writerCloseErr := none, pipeCloseErr := none },
    httpErr := none, ctxCancelled := false,
    status := 201, statusText := "201 Created", respBody := "created",
    json200 := { assetId := "asset-2", contentType := "image/png", size := 5 } }

/-! Supporting lemmas about the sniffing table and the validator. -/

theorem sniff_jpeg (rest : List Nat) :
    sniffDetect (0xFF :: 0xD8 :: 0xFF :: rest) = "image/jpeg" := by
  simp +decide [sniffDetect, sniffSignatures, runSniff, sigMatch, htmlSigMatch, htmlPatMatch,
    maskedSigMatch, maskedMatch, exactSigMatch, leadingMatch, firstNonWS, isWS, isTT]

theorem sniff_png (rest : List Nat) :
    sniffDetect (0x89 :: 0x50 :: 0x4E :: 0x47 :: 0x0D :: 0x0A :: 0x1A :: 0x0A :: rest) =
      "image/png" := by
  simp +decide [sniffDetect, sniffSignatures, runSniff, sigMatch, htmlSigMatch, htmlPatMatch,
    maskedSigMatch, maskedMatch, exactSigMatch, leadingMatch, firstNonWS, isWS, isTT]

theorem sniff_webp (b4 b5 b6 b7 : Nat) (rest : List Nat) :
    sniffDetect (0x52 :: 0x49 :: 0x46 :: 0x46 :: b4 :: b5 :: b6 :: b7 ::
      0x57 :: 0x45 :: 0x42 :: 0x50 :: rest) = "image/webp" := by
  simp +decide [sniffDetect, sniffSignatures, runSniff, sigMatch, htmlSigMatch, htmlPatMatch,
    maskedSigMatch, maskedMatch, exactSigMatch, leadingMatch, firstNonWS, isWS, isTT]

theorem leadingMatch_eq_append {pat data : List Nat} (h : leadingMatch pat data = true) :
    ∃ t, data = pat ++ t := by
  induction pat generalizing data with
  | nil => exact ⟨data, rfl⟩
  | cons p ps ih =>
    cases data with
    | nil => simp [leadingMatch] at h
    | cons d ds =>
      simp [leadingMatch] at h
      obtain ⟨t, ht⟩ := ih h.2
      exact ⟨t, by simp [h.1, ht]⟩

theorem validator_jpeg (t : List Nat) :
    ImageValidatorBytes (0xFF :: 0xD8 :: 0xFF :: t) = .ok "image/jpeg" := by
  have hbuf : (0xFF :: 0xD8 :: 0xFF :: t).take 512 = 0xFF :: 0xD8 :: 0xFF :: t.take 509 := rfl
  have hbuf2 : (0xFF :: 0xD8 :: 0xFF :: t.take 509).take 512 =
      0xFF :: 0xD8 :: 0xFF :: (t.take 509).take 509 := rfl
  unfold ImageValidatorBytes imageValidatorWith
  rw [hbuf, if_neg, DetectContentType, hbuf2, sniff_jpeg]
  · simp
  · simp +decide [isWebpHeader]

theorem validator_png (t : List Nat) :
    ImageValidatorBytes (0x89 :: 0x50 :: 0x4E :: 0x47 :: 0x0D :: 0x0A :: 0x1A :: 0x0A :: t) =
      .ok "image/png" := by
  have hbuf : (0x89 :: 0x50 :: 0x4E :: 0x47 :: 0x0D :: 0x0A :: 0x1A :: 0x0A :: t).take 512 =
      0x89 :: 0x50 :: 0x4E :: 0x47 :: 0x0D :: 0x0A :: 0x1A :: 0x0A :: t.take 504 := rfl
  have hbuf2 :
      (0x89 :: 0x50 :: 0x4E :: 0x47 :: 0x0D :: 0x0A :: 0x1A :: 0x0A :: t.take 504).take 512 =
      0x89 :: 0x50 :: 0x4E :: 0x47 :: 0x0D :: 0x0A :: 0x1A :: 0x0A :: (t.take 504).take 504 := rfl
  unfold ImageValidatorBytes imageValidatorWith
  rw [hbuf, if_neg, DetectContentType, hbuf2, sniff_png]
  · simp
  · simp +decide [isWebpHeader]

theorem isWebpHeader_shape {l : List Nat} (h : isWebpHeader l) :
    ∃ b4 b5 b6 b7 rest, l = 0x52 :: 0x49 :: 0x46 :: 0x46 :: b4 :: b5 :: b6 :: b7 ::
      0x57 :: 0x45 :: 0x42 :: 0x50 :: rest := by
  obtain ⟨hlen, h4, h8⟩ := h
  match l, hlen with
  | a0 :: a1 :: a2 :: a3 :: a4 :: a5 :: a6 :: a7 :: a8 :: a9 :: a10 :: a11 :: rest, _ =>
    have h4x : [a0, a1, a2, a3] = [0x52, 0x49, 0x46, 0x46] := h4
    have h8x : [a8, a9, a10, a11] = [0x57, 0x45, 0x42, 0x50] := h8
    simp at h4x h8x
    obtain ⟨e0, e1, e2, e3⟩ := h4x
    obtain ⟨e8, e9, e10, e11⟩ := h8x
    subst e0; subst e1; subst e2; subst e3; subst e8; subst e9; subst e10; subst e11
    exact ⟨a4, a5, a6, a7, rest, rfl⟩

theorem isWebpHeader_take512 {l : List Nat} (h : isWebpHeader l) :
    isWebpHeader (l.take 512) := by
  obtain ⟨b4, b5, b6, b7, rest, hl⟩ := isWebpHeader_shape h
  subst hl
  refine ⟨by simp, rfl, rfl⟩

theorem validator_webp {content : List Nat} (h : isWebpHeader (content.take 512)) :
    ImageValidatorBytes content = .ok "image/webp" := by
  unfold ImageValidatorBytes imageValidatorWith
  rw [if_pos h]

theorem validator_ok_detect {content : List Nat} {ct : String}
    (h : ImageValidatorBytes content = .ok ct) : DetectContentType content = ct := by
  unfold ImageValidatorBytes imageValidatorWith at h
  by_cases hw : isWebpHeader (content.take 512)
  · rw [if_pos hw] at h
    obtain ⟨b4, b5, b6, b7, rest, hl⟩ := isWebpHeader_shape hw
    have : ct = "image/webp" := by injection h with h1; exact h1.symm
    subst this
    unfold DetectContentType
    rw [hl, sniff_webp]
  · rw [if_neg hw] at h
    by_cases hc : DetectContentType (content.take 512) = "image/jpeg" ∨
        DetectContentType (content.take 512) = "image/png"
    · rw [if_pos hc] at h
      injection h with h1
      rw [← h1]
      unfold DetectContentType
      simp [List.take_take]
    · rw [if_neg hc] at h
      exact absurd h (by simp)

theorem if_some_eq {c : Prop} [Decidable c] {k ct : String}
    (h : (if c then some k else none) = some ct) : ct = k := by
  split at h
  · injection h with h1; exact h1.symm
  · exact absurd h (by simp)

theorem sigMatch_ne_empty {data : List Nat} {fnws : Nat} {s : SniffSig} {ct : String}
    (hs : ctNonempty s) (h : sigMatch data fnws s = some ct) : ct ≠ "" := by
  cases s with
  | html pat =>
    simp only [sigMatch, htmlSigMatch] at h
    have := if_some_eq h
    subst this
    decide
  | masked mask pat skipWS c =>
    simp only [sigMatch, maskedSigMatch] at h
    have := if_some_eq h
    subst this
    exact hs
  | exact pat c =>
    simp only [sigMatch, exactSigMatch] at h
    have := if_some_eq h
    subst this
    exact hs
  | mp4 =>
    simp only [sigMatch, mp4SigMatch] at h
    split at h
    · exact absurd h (by simp)
    · split at h
      · exact absurd h (by simp)
      · split at h
        · exact absurd h (by simp)
        · have := if_some_eq h
          subst this
          decide
  | text =>
    simp only [sigMatch, textSigMatch] at h
    split at h
    · exact absurd h (by simp)
    · injection h with h1
      subst h1
      decide

theorem runSniff_ne_empty {data : List Nat} {fnws : Nat} :
    ∀ {sigs : List SniffSig}, (∀ s ∈ sigs, ctNonempty s) →
    ∀ {ct : String}, runSniff data fnws sigs = some ct → ct ≠ "" := by
  intro sigs
  induction sigs with
  | nil => intro _ ct h; simp [runSniff] at h
  | cons s rest ih =>
    intro hall ct h
    unfold runSniff at h
    cases hm : sigMatch data fnws s with
    | some c =>
      rw [hm] at h
      injection h with h1
      subst h1
      exact sigMatch_ne_empty (hall s (by simp)) hm
    | none =>
      rw [hm] at h
      exact ih (fun t ht => hall t (by simp [ht])) h

theorem sniffDetect_ne_empty (data : List Nat) : sniffDetect data ≠ "" := by
  unfold sniffDetect
  cases h : runSniff data (firstNonWS data) sniffSignatures with
  | some ct => exact runSniff_ne_empty (by decide) h
  | none => decide

theorem detect_take512 (body : List Nat) :
    DetectContentType (body.take 512) = DetectContentType body := by
  unfold DetectContentType
  simp [List.take_take]

/-! Claim theorems. -/

/-- C1: when the 200 response body holds strictly more than maxsize bytes,
Process returns the validation-category exceeds-limit error (not a
download-category one), the temp file has been removed by the time the
call returns, and the bounded copy reads at most maxsize plus one bytes
from the body.  The conclusion holds for any validator argument and any
outcome of the final temp-file close. -/
theorem process_oversize_is_validation_failure (maxsize : Nat) (body : List Nat)
    (tmpCloseErr : Option String)
    (validator : Option (List Nat → Except VError String))
    (hbig : maxsize < body.length) :
    (Process maxsize
        { tmpCreateErr := none, resp := .ok { status := 200, body := body },
          copyErr := none, tmpCloseErr := tmpCloseErr } validator).result =
      .error (.validationFailed (.exceedsLimit maxsize)) ∧
    (Process maxsize
        { tmpCreateErr := none, resp := .ok { status := 200, body := body },
          copyErr := none, tmpCloseErr := tmpCloseErr } validator).tempFileExistsAfter = false ∧
    (copyLimited maxsize body).length ≤ maxsize + 1 := by
  have hwlen : (copyLimited maxsize body).length = maxsize + 1 := by
    simp [copyLimited]
    omega
  have hproc : Process maxsize
      { tmpCreateErr := none, resp := .ok { status := 200, body := body },
        copyErr := none, tmpCloseErr := tmpCloseErr } validator =
      { result := .error (.validationFailed (.exceedsLimit maxsize)),
        tempFileExistsAfter := false } := by
    unfold Process
    simp only []
    rw [if_neg (by simp), if_pos (by rw [hwlen]; omega)]
    simp [finalizeProcess]
  rw [hproc]
  exact ⟨rfl, rfl, by omega⟩

theorem process_oversize_witness :
    2 < ([1, 2, 3, 4] : List Nat).length ∧
    ((Process 2
        { tmpCreateErr := none, resp := .ok { status := 200, body := [1, 2, 3, 4] },
          copyErr := none, tmpCloseErr := none } none).result =
      .error (.validationFailed (.exceedsLimit 2)) ∧
    (Process 2
        { tmpCreateErr := none, resp := .ok { status := 200, body := [1, 2, 3, 4] },
          copyErr := none, tmpCloseErr := none } none).tempFileExistsAfter = false ∧
    (copyLimited 2 [1, 2, 3, 4]).length ≤ 2 + 1) :=
  ⟨by decide, process_oversize_is_validation_failure 2 [1, 2, 3, 4] none none (by decide)⟩

/-- C2: a 200 response whose body fits under the ceiling and starts with
the JPEG, PNG, or RIFF/WEBP container signature is accepted by Process
with the image validator: the call returns no error, a non-empty path,
and a content type from the image allow-list. -/
theorem process_allowed_signature_succeeds (maxsize : Nat) (body : List Nat)
    (hlen : body.length ≤ maxsize)
    (hsig : leadingMatch jpegSigBytes body = true ∨ leadingMatch pngSigBytes body = true ∨
      isWebpHeader body) :
    ∃ ct, (Process maxsize
        { tmpCreateErr := none, resp := .ok { status := 200, body := body },
          copyErr := none, tmpCloseErr := none } (some ImageValidatorBytes)).result =
        .ok (tmpName, ct) ∧
      (ct = "image/jpeg" ∨ ct = "image/png" ∨ ct = "image/webp") ∧ tmpName ≠ "" := by
  have htake : body.take (maxsize + 1) = body := List.take_of_length_le (by omega)
  have hvalid : ∃ ct, ImageValidatorBytes body = .ok ct ∧
      (ct = "image/jpeg" ∨ ct = "image/png" ∨ ct = "image/webp") := by
    rcases hsig with hj | hp | hw
    · obtain ⟨t, ht⟩ := leadingMatch_eq_append hj
      subst ht
      exact ⟨"image/jpeg", validator_jpeg t, Or.inl rfl⟩
    · obtain ⟨t, ht⟩ := leadingMatch_eq_append hp
      subst ht
      exact ⟨"image/png", validator_png t, Or.inr (Or.inl rfl)⟩
    · exact ⟨"image/webp", validator_webp (isWebpHeader_take512 hw), Or.inr (Or.inr rfl)⟩
  obtain ⟨ct, hv, hmem⟩ := hvalid
  refine ⟨ct, ?_, hmem, by simp [tmpName]⟩
  unfold Process
  simp only []
  rw [if_neg (by simp)]
  rw [if_neg (by simp [copyLimited, htake]; omega)]
  simp [copyLimited, htake, hv, finalizeProcess]

theorem process_allowed_signature_witness :
    pngSigBytes.length ≤ 100 ∧
    ∃ ct, (Process 100
        { tmpCreateErr := none, resp := .ok { status := 200, body := pngSigBytes },
          copyErr := none, tmpCloseErr := none } (some ImageValidatorBytes)).result =
        .ok (tmpName, ct) ∧
      (ct = "image/jpeg" ∨ ct = "image/png" ∨ ct = "image/webp") ∧ tmpName ≠ "" :=
  ⟨by decide,
    process_allowed_signature_succeeds 100 pngSigBytes (by decide)
      (Or.inr (Or.inl (by decide)))⟩

/-- C3 counterexample: the streaming uploader Karakeep.CreateAsset has no
zero-byte check; a zero-byte upload whose local steps all succeed and
whose response status is 200 returns the decoded asset instead of the
nothing-written upload failure the claim requires for every status. -/
theorem streaming_upload_zero_byte_succeeds :
    KarakeepCreateAsset zeroByteUpload =
      .ok { assetId := "asset-1", contentType := "image/png", size := 0 } ∧
    zeroByteUpload.producer.fileSize = 0 := ⟨rfl, rfl⟩

/-- C3 amended: the nothing-written rejection of a zero-byte multipart
copy lives in the buffering private client Client.CreateAsset, which
fails before any HTTP activity, hence independently of every possible
response; the streaming uploader has no such check. -/
theorem private_client_rejects_empty_upload (env : KkEnv)
    (hform : env.formErr = none) (hcopy : env.copyErr = none)
    (hzero : env.written = 0) :
    KkCreateAsset env = .error .nothingWritten := by
  unfold KkCreateAsset
  rw [hform, hcopy, if_pos hzero]

theorem private_client_rejects_empty_upload_witness :
    KkCreateAsset
      { formErr := none, copyErr := none, written := 0, requestBuildErr := none,
        requestErr := none, readBodyErr := none,
        unmarshal := .ok { assetId := "a", contentType := "image/png", size := 3,
                           fileName := "f", error := "" } } =
      .error .nothingWritten :=
  private_client_rejects_empty_upload _ rfl rfl rfl

/-- C4: the content validator accepts a RIFF/WEBP container prefix through
the specialized check alone, for every generic sniffing function (so
before any generic sniffing); on every other prefix it falls back to the
generic detector and accepts exactly the types image/jpeg and image/png,
rejecting anything else with the unsupported-format error; seek and read
failures propagate as I/O errors, a constructor distinct from the
validation rejection. -/
theorem image_validator_policy :
    (∀ (sniff : List Nat → String) (content : List Nat),
        isWebpHeader (content.take 512) →
        imageValidatorWith sniff content = .ok "image/webp")
  ∧ (∀ content : List Nat, ¬ isWebpHeader (content.take 512) →
        (DetectContentType (content.take 512) = "image/jpeg" ∨
         DetectContentType (content.take 512) = "image/png") →
        ImageValidatorBytes content = .ok (DetectContentType (content.take 512)))
  ∧ (∀ content : List Nat, ¬ isWebpHeader (content.take 512) →
        DetectContentType (content.take 512) ≠ "image/jpeg" →
        DetectContentType (content.take 512) ≠ "image/png" →
        ImageValidatorBytes content = .error .unsupportedFormat)
  ∧ (∀ (f : FileModel) (m : String), f.seekErr = some m →
        ImageValidator f = .error (.ioError m))
  ∧ (∀ (f : FileModel) (m : String), f.seekErr = none → f.readErr = some m →
        ImageValidator f = .error (.ioError m))
  ∧ (∀ m : String, VError.unsupportedFormat ≠ VError.ioError m) := by
  refine ⟨?_, ?_, ?_, ?_, ?_, ?_⟩
  · intro sniff content h
    unfold imageValidatorWith
    rw [if_pos h]
  · intro content hw hc
    unfold ImageValidatorBytes imageValidatorWith
    rw [if_neg hw, if_pos hc]
  · intro content hw h1 h2
    unfold ImageValidatorBytes imageValidatorWith
    rw [if_neg hw, if_neg (by tauto)]
  · intro f m h
    unfold ImageValidator
    rw [h]
  · intro f m h1 h2
    unfold ImageValidator
    rw [h1, h2]
  · intro m h
    exact VError.noConfusion h

theorem image_validator_policy_witness :
    imageValidatorWith (fun _ => "application/pdf")
      [0x52, 0x49, 0x46, 0x46, 0x00, 0x00, 0x00, 0x00, 0x57, 0x45, 0x42, 0x50] =
      .ok "image/webp" ∧
    ImageValidator { content := [1, 2], seekErr := some "seek failed", readErr := none } =
      .error (.ioError "seek failed") :=
  ⟨image_validator_policy.1 (fun _ => "application/pdf") _ (by decide),
   image_validator_policy.2.2.2.1 _ "seek failed" rfl⟩

/-- C5: each polling iteration is classified exhaustively; a fetch error
aborts the loop at once with no retry however many fetches remain; a
Failure status exits with a tagging failure distinct from a fetch
failure; a Success status exits normally with the final snapshot; a
Pending status sleeps exactly the configured interval and re-fetches; and
the loop has no retry limit of its own: any number of consecutive Pending
snapshots produces no outcome. -/
theorem poll_loop_classification :
    (∀ (w : Nat) (m : String) (rest : List (Except String KarakeepBookmark)),
        pollIteration w (.error m) = .abortFetchError m ∧
        pollLoop w (.error m :: rest) = some (.fetchFailed m, 0))
  ∧ (∀ (w : Nat) (b : KarakeepBookmark) (rest : List (Except String KarakeepBookmark)),
        b.taggingStatus = .failure →
        pollIteration w (.ok b) = .abortTaggingFailure ∧
        pollLoop w (.ok b :: rest) = some (.taggingFailed, 0))
  ∧ (∀ m : String, PollOutcome.taggingFailed ≠ PollOutcome.fetchFailed m)
  ∧ (∀ (w : Nat) (b : KarakeepBookmark) (rest : List (Except String KarakeepBookmark)),
        b.taggingStatus = .success →
        pollIteration w (.ok b) = .done b ∧
        pollLoop w (.ok b :: rest) = some (.completed b, 0))
  ∧ (∀ (w : Nat) (b : KarakeepBookmark) (rest : List (Except String KarakeepBookmark)),
        b.taggingStatus = .pending →
        pollIteration w (.ok b) = .sleepRetry w ∧
        pollLoop w (.ok b :: rest) = (pollLoop w rest).map (fun r => (r.1, r.2 + w)))
  ∧ (∀ (w k : Nat) (b : KarakeepBookmark), b.taggingStatus = .pending →
        pollLoop w (List.replicate k (.ok b)) = none)
  ∧ (∀ (w : Nat) (f : Except String KarakeepBookmark),
        (∃ m, pollIteration w f = .abortFetchError m) ∨
        pollIteration w f = .abortTaggingFailure ∨
        (∃ b, pollIteration w f = .done b) ∨
        pollIteration w f = .sleepRetry w) := by
  refine ⟨?_, ?_, ?_, ?_, ?_, ?_, ?_⟩
  · intro w m rest
    exact ⟨rfl, rfl⟩
  · intro w b rest h
    exact ⟨by simp [pollIteration, h], by simp [pollLoop, pollIteration, h]⟩
  · intro m h
    exact PollOutcome.noConfusion h
  · intro w b rest h
    exact ⟨by simp [pollIteration, h], by simp [pollLoop, pollIteration, h]⟩
  · intro w b rest h
    exact ⟨by simp [pollIteration, h], by simp [pollLoop, pollIteration, h]⟩
  · intro w k b h
    induction k with
    | zero => simp [pollLoop]
    | succ n ih => simp [List.replicate, pollLoop, pollIteration, h, ih]
  · intro w f
    cases f with
    | error m => exact Or.inl ⟨m, rfl⟩
    | ok b =>
      cases hb : b.taggingStatus with
      | pending => exact Or.inr (Or.inr (Or.inr (by simp [pollIteration, hb])))
      | success => exact Or.inr (Or.inr (Or.inl ⟨b, by simp [pollIteration, hb]⟩))
      | failure => exact Or.inr (Or.inl (by simp [pollIteration, hb]))

theorem poll_loop_classification_witness :
    pollIteration 7 (.ok { id := "bk1", taggingStatus := .failure }) = .abortTaggingFailure ∧
    pollLoop 7 [.ok { id := "bk1", taggingStatus := .failure }] = some (.taggingFailed, 0) :=
  poll_loop_classification.2.1 7 { id := "bk1", taggingStatus := .failure } [] rfl

/-- C6: the producer records at most one error in the one-slot completion
channel; whenever it reports an error, that error is the first failure
among file open, part-header write, byte copy, trailer close, and stream
close; a trailer-close or stream-close error is reported only when no
earlier error exists; the reported error is the one CreateAsset returns
regardless of the HTTP outcome. -/
theorem producer_error_discipline :
    (∀ (e : ProducerEnv) (err : ProducerError),
        (producerRun e).sent = some err → firstFailureFive e = some err)
  ∧ (∀ (e : ProducerEnv) (m : String),
        ((producerRun e).sent = some (.closeWriterFailed m) ∨
         (producerRun e).sent = some (.closePipeFailed m)) →
        e.openErr = none ∧ e.partErr = none ∧ e.copyErr = none)
  ∧ (∀ (env : UploadEnv) (err : ProducerError),
        (producerRun env.producer).sent = some err →
        KarakeepCreateAsset env = .error (.producer err)) := by
  refine ⟨?_, ?_, ?_⟩
  · intro e err h
    have hs : (producerRun e).sent = producerInner e := rfl
    rw [hs] at h
    unfold producerInner at h
    unfold firstFailureFive
    cases ho : e.openErr with
    | some m => simp_all
    | none =>
      cases hp : e.partErr with
      | some m => simp_all
      | none =>
        cases hc : e.copyErr with
        | some m => simp_all
        | none => simp_all
  · intro e m h
    have hs : (producerRun e).sent = producerInner e := rfl
    rw [hs] at h
    unfold producerInner at h
    cases ho : e.openErr with
    | some mm => simp_all
    | none =>
      cases hp : e.partErr with
      | some mm => simp_all
      | none =>
        cases hc : e.copyErr with
        | some mm => simp_all
        | none => simp_all
  · intro env err h
    simp only [KarakeepCreateAsset, h]

theorem producer_error_discipline_witness :
    KarakeepCreateAsset
      { producer :=
          { openErr := some "no such file", partErr := none, copyErr := none,
            fileSize := 0, fileCloseErr := none, writerCloseErr := none, pipeCloseErr := none },
        httpErr := some "broken pipe", ctxCancelled := false, status := 500,
        statusText := "500 Internal Server Error", respBody := "",
        json200 := { assetId := "x", contentType := "image/png", size := 1 } } =
      .error (.producer (.openFailed "no such file")) :=
  producer_error_discipline.2.2 _ _ rfl

/-- C7 counterexample: a fully successful streaming upload answered with
status 201 is rejected by Karakeep.CreateAsset with the bad-status upload
failure, so 201 is not treated as success as the claim states. -/
theorem streaming_upload_rejects_status_201 :
    KarakeepCreateAsset created201Upload = .error (.badStatus "201 Created" "created") := rfl

/-- C7 amended: the streaming uploader treats exactly status 200 as
success and returns the parsed asset; every other status, 201 included,
is an upload failure whose error carries the response status and body. -/
theorem streaming_upload_status_200_only (env : UploadEnv)
    (hsent : (producerRun env.producer).sent = none)
    (hhttp : env.httpErr = none) :
    (env.status = 200 → KarakeepCreateAsset env = .ok env.json200) ∧
    (env.status ≠ 200 →
      KarakeepCreateAsset env = .error (.badStatus env.statusText env.respBody)) := by
  constructor
  · intro h200
    simp only [KarakeepCreateAsset, hsent, hhttp]
    rw [if_neg (by simp [h200])]
  · intro hne
    simp only [KarakeepCreateAsset, hsent, hhttp]
    rw [if_pos hne]

theorem streaming_upload_status_200_only_witness :
    KarakeepCreateAsset created201Upload =
      .error (.badStatus created201Upload.statusText created201Upload.respBody) :=
  (streaming_upload_status_200_only created201Upload rfl rfl).2 (by decide)

/-- C8: with no validator, Process accepts every within-limit 200 payload
and returns the content type computed by the same DetectContentType
sniffing; the sniffed type is never empty; whenever the validator accepts
a content, the generic sniffer computes the same type on that content,
and the sniffer recognizes the RIFF/WEBP container exactly like the
specialized check. -/
theorem process_without_validator_best_effort :
    (∀ (maxsize : Nat) (body : List Nat), body.length ≤ maxsize →
      (Process maxsize
          { tmpCreateErr := none, resp := .ok { status := 200, body := body },
            copyErr := none, tmpCloseErr := none } none).result =
        .ok (tmpName, DetectContentType body) ∧ DetectContentType body ≠ "")
  ∧ (∀ (content : List Nat) (ct : String), ImageValidatorBytes content = .ok ct →
      DetectContentType content = ct)
  ∧ (∀ content : List Nat, isWebpHeader (content.take 512) →
      DetectContentType content = "image/webp") := by
  refine ⟨?_, @validator_ok_detect, ?_⟩
  · intro maxsize body hlen
    have htake : body.take (maxsize + 1) = body := List.take_of_length_le (by omega)
    constructor
    · unfold Process
      simp only []
      rw [if_neg (by simp)]
      rw [if_neg (by simp [copyLimited, htake]; omega)]
      simp [copyLimited, htake, finalizeProcess, detect_take512]
    · unfold DetectContentType
      exact sniffDetect_ne_empty _
  · intro content h
    obtain ⟨b4, b5, b6, b7, rest, hl⟩ := isWebpHeader_shape h
    unfold DetectContentType
    rw [hl, sniff_webp]

theorem process_without_validator_witness :
    (Process 3
        { tmpCreateErr := none, resp := .ok { status := 200, body := [0x00, 0x61] },
          copyErr := none, tmpCloseErr := none } none).result =
      .ok (tmpName, DetectContentType [0x00, 0x61]) ∧
    DetectContentType [0x00, 0x61] ≠ "" :=
  process_without_validator_best_effort.1 3 [0x00, 0x61] (by decide)

/-- C9: releasing the same path twice never crashes; the first Cleanup
removes the file and succeeds, the second reports the benign not-exist
outcome of os.Remove and leaves the filesystem unchanged. -/
theorem cleanup_twice_benign (fs : String → Bool) (path : String) (h : fs path = true) :
    (Cleanup fs path).1 = .ok () ∧
    ((Cleanup fs path).2) path = false ∧
    (Cleanup (Cleanup fs path).2 path).1 = .error .notExist ∧
    (Cleanup (Cleanup fs path).2 path).2 = (Cleanup fs path).2 := by
  have hfs1 : Cleanup fs path =
      (.ok (), fun q => if q = path then false else fs q) := by
    unfold Cleanup
    rw [if_pos h]
  have hfalse : ((Cleanup fs path).2) path = false := by
    rw [hfs1]
    simp
  have h2 : Cleanup (fun q => if q = path then false else fs q) path =
      (.error .notExist, fun q => if q = path then false else fs q) := by
    unfold Cleanup
    rw [if_neg (by simp)]
  refine ⟨by rw [hfs1], hfalse, ?_, ?_⟩
  · rw [hfs1]
    show (Cleanup (fun q => if q = path then false else fs q) path).1 = _
    rw [h2]
  · rw [hfs1]
    show (Cleanup (fun q => if q = path then false else fs q) path).2 = _
    rw [h2]

theorem cleanup_twice_benign_witness :
    (Cleanup (fun q => q == "karakeepbot-1.tmp") "karakeepbot-1.tmp").1 = .ok () ∧
    ((Cleanup (fun q => q == "karakeepbot-1.tmp") "karakeepbot-1.tmp").2)
      "karakeepbot-1.tmp" = false ∧
    (Cleanup (Cleanup (fun q => q == "karakeepbot-1.tmp") "karakeepbot-1.tmp").2
      "karakeepbot-1.tmp").1 = .error .notExist ∧
    (Cleanup (Cleanup (fun q => q == "karakeepbot-1.tmp") "karakeepbot-1.tmp").2
      "karakeepbot-1.tmp").2 =
      (Cleanup (fun q => q == "karakeepbot-1.tmp") "karakeepbot-1.tmp").2 :=
  cleanup_twice_benign (fun q => q == "karakeepbot-1.tmp") "karakeepbot-1.tmp" rfl

/-- C10: a 200 response with an empty body passes Process without a
validator: zero bytes never exceed the ceiling, the result is a nil error
with the non-empty temp path and the content type sniffed from an empty
prefix; only the private uploader later rejects the empty artifact
through its zero-byte check. -/
theorem process_empty_body_accepted (maxsize : Nat) :
    (Process maxsize
        { tmpCreateErr := none, resp := .ok { status := 200, body := [] },
          copyErr := none, tmpCloseErr := none } none).result =
      .ok (tmpName, "text/plain; charset=utf-8") ∧
    tmpName ≠ "" ∧
    (∀ env : KkEnv, env.formErr = none → env.copyErr = none → env.written = 0 →
      KkCreateAsset env = .error .nothingWritten) := by
  refine ⟨?_, by simp [tmpName], ?_⟩
  · unfold Process
    simp only []
    rw [if_neg (by simp)]
    rw [if_neg (by simp [copyLimited])]
    simp [copyLimited, finalizeProcess]
    decide
  · intro env h1 h2 h3
    unfold KkCreateAsset
    rw [h1, h2, if_pos h3]

theorem process_empty_body_accepted_witness :
    (Process 10
        { tmpCreateErr := none, resp := .ok { status := 200, body := [] },
          copyErr := none, tmpCloseErr := none } none).result =
      .ok (tmpName, "text/plain; charset=utf-8") ∧
    KkCreateAsset
      { formErr := none, copyErr := none, written := 0, requestBuildErr := none,
        requestErr := none, readBodyErr := none,
        unmarshal := .error "unreached" } = .error .nothingWritten :=
  ⟨(process_empty_body_accepted 10).1,
   (process_empty_body_accepted 10).2.2 _ rfl rfl rfl⟩

end Karakeepbot
